import Mathlib

/-!
Shallow embedding of `src/tf/src/static_transform_publisher.cpp`
(`TransformSender`): the reconfiguration state machine for a statically
published transform.  Machine doubles are modelled as real numbers; the
tf library types used by this file (`tf::Quaternion`, `tf::Transform`,
`tf::StampedTransform`) are part of this repository but absent from
`src/`, so their operations are modelled from the spec where noted.
-/

namespace StaticTransformPublisher

/-- Quaternion with components (x, y, z, w), mirroring `tf::Quaternion`
as used by the source. -/
structure Quat where
  x : ℝ
  y : ℝ
  z : ℝ
  w : ℝ

/-- 3-vector, mirroring `tf::Vector3`. -/
structure Vec3 where
  x : ℝ
  y : ℝ
  z : ℝ

/-- The transform owned by `TransformSender` (`tf::StampedTransform`):
rotation, translation (origin), stamp and the two frame identifiers.
The rotation is stored as the quaternion handed to `tf::Transform`. -/
structure StampedTransform where
  rotation : Quat
  origin : Vec3
  stamp : ℕ
  frame_id : String
  child_frame_id : String

/-- The `tf::TransformSenderConfig` record exchanged with
dynamic_reconfigure: translation, Euler angles in the active unit,
quaternion components, the angle-unit selector and the
`use_quaternion` checkbox. -/
structure Config where
  x : ℝ
  y : ℝ
  z : ℝ
  roll : ℝ
  pitch : ℝ
  yaw : ℝ
  qw : ℝ
  qx : ℝ
  qy : ℝ
  qz : ℝ
  angle_units : ℤ
  use_quaternion : Bool

/-- Severity of a logged diagnostic (`ROS_INFO` / `ROS_WARN` / `ROS_ERROR`). -/
inductive DiagLevel where
  | info
  | warn
  | error
deriving DecidableEq

/-- A surfaced diagnostic: severity and message. -/
abbrev Diag := DiagLevel × String

/-- The mutable state of `TransformSender`: the stamped transform
`transform_`, the `angle_units_` flag, and the roll/pitch/yaw editing
bounds held by the reconfigure server (`reconfRPYLimits` writes the
same value into roll, pitch and yaw bounds, so one scalar each for min
and max suffices). -/
structure SenderState where
  transform : StampedTransform
  angle_units : ℤ
  rpy_min : ℝ
  rpy_max : ℝ

/-- Enum value `USE_RADIANS` from the source. -/
def USE_RADIANS : ℤ := 0

/-- Enum value `USE_DEGREES` from the source. -/
def USE_DEGREES : ℤ := 1

/-- Bitmask level `CHANGE_XYZ = 1 << 0` from the source. -/
def CHANGE_XYZ : ℕ := 1

/-- Bitmask level `CHANGE_RPY = 1 << 1` from the source. -/
def CHANGE_RPY : ℕ := 2

/-- Bitmask level `CHANGE_QUAT = 1 << 2` from the source. -/
def CHANGE_QUAT : ℕ := 4

/-- Bitmask level `CHANGE_UNITS = 1 << 3` from the source. -/
def CHANGE_UNITS : ℕ := 8

/-- Level `CHANGE_ALL = 0xffffffff` from the source, sent by
dynamic_reconfigure at first run. -/
def CHANGE_ALL : ℕ := 4294967295

/-- Machine double epsilon `DBL_EPSILON` = 2^(-52). -/
noncomputable def DBL_EPSILON : ℝ := (2 : ℝ) ^ (-52 : ℤ)

/-- Modelled from the spec: `tf::Quaternion::length2` is missing from
`src/` (only its caller is present); the spec calls it the squared
norm of the quaternion. -/
def length2 (q : Quat) : ℝ := q.x * q.x + q.y * q.y + q.z * q.z + q.w * q.w

/-- Modelled from the spec: `tf::Quaternion::normalize` is missing from
`src/`; the spec says a non-unit quaternion is normalized, i.e. scaled
by the inverse of its norm. -/
noncomputable def normalize (q : Quat) : Quat :=
  ⟨q.x / Real.sqrt (length2 q), q.y / Real.sqrt (length2 q),
   q.z / Real.sqrt (length2 q), q.w / Real.sqrt (length2 q)⟩

/-- Hamilton product of quaternions, used to compose elementary
rotations for `setRPY`. -/
def qmul (p q : Quat) : Quat :=
  ⟨p.w * q.x + p.x * q.w + p.y * q.z - p.z * q.y,
   p.w * q.y - p.x * q.z + p.y * q.w + p.z * q.x,
   p.w * q.z + p.x * q.y - p.y * q.x + p.z * q.w,
   p.w * q.w - p.x * q.x - p.y * q.y - p.z * q.z⟩

/-- Rotation by angle `r` about the X axis, as a quaternion. -/
noncomputable def rotX (r : ℝ) : Quat := ⟨Real.sin (r / 2), 0, 0, Real.cos (r / 2)⟩

/-- Rotation by angle `p` about the Y axis, as a quaternion. -/
noncomputable def rotY (p : ℝ) : Quat := ⟨0, Real.sin (p / 2), 0, Real.cos (p / 2)⟩

/-- Rotation by angle `y` about the Z axis, as a quaternion. -/
noncomputable def rotZ (y : ℝ) : Quat := ⟨0, 0, Real.sin (y / 2), Real.cos (y / 2)⟩

/-- Modelled from the spec: `tf::Quaternion::setRPY` is missing from
`src/`; per the spec, roll is applied about X, pitch about Y, yaw
about Z, combined in roll-pitch-yaw order into a single quaternion. -/
noncomputable def setRPY (roll pitch yaw : ℝ) : Quat :=
  qmul (rotZ yaw) (qmul (rotY pitch) (rotX roll))

/-- Two-argument arctangent on the reals, for the Euler decomposition. -/
noncomputable def atan2 (y x : ℝ) : ℝ :=
  if 0 < x then Real.arctan (y / x)
  else if x < 0 then
    (if 0 ≤ y then Real.arctan (y / x) + Real.pi else Real.arctan (y / x) - Real.pi)
  else
    (if 0 < y then Real.pi / 2 else if y < 0 then -(Real.pi / 2) else 0)

/-- Modelled from the spec: `tf::Matrix3x3::getRPY` is missing from
`src/`; per the spec it decomposes the rotation into roll/pitch/yaw,
the inverse (away from gimbal lock) of the roll-pitch-yaw composition,
here by the standard quaternion-to-Euler formulas. -/
noncomputable def getRPY (q : Quat) : ℝ × ℝ × ℝ :=
  (atan2 (2 * (q.w * q.x + q.y * q.z)) (1 - 2 * (q.x * q.x + q.y * q.y)),
   Real.arcsin (2 * (q.w * q.y - q.z * q.x)),
   atan2 (2 * (q.w * q.z + q.x * q.y)) (1 - 2 * (q.y * q.y + q.z * q.z)))

/-- `TransformSender::toDegrees` applied to one angle: `r * 180.0 / M_PI`. -/
noncomputable def toDegrees (r : ℝ) : ℝ := r * 180 / Real.pi

/-- `TransformSender::toRadians` applied to one angle: `r / 180.0 * M_PI`. -/
noncomputable def toRadians (r : ℝ) : ℝ := r / 180 * Real.pi

/-- Radians-to-degrees conversion of a roll/pitch/yaw triple, applied
exactly when the given unit flag is `USE_DEGREES`, as done after every
`getRPY` read-back in the source. -/
noncomputable def displayRPY (units : ℤ) (rpy : ℝ × ℝ × ℝ) : ℝ × ℝ × ℝ :=
  if units = USE_DEGREES then (toDegrees rpy.1, toDegrees rpy.2.1, toDegrees rpy.2.2)
  else rpy

/-- `TransformSender::reconfRPYLimits`: updates only the roll/pitch/yaw
editing bounds on the reconfigure server, to ±π when `angle_units_` is
`USE_RADIANS` and ±180 otherwise. -/
noncomputable def reconfRPYLimits (s : SenderState) : SenderState :=
  if s.angle_units = USE_RADIANS then
    { s with rpy_min := -Real.pi, rpy_max := Real.pi }
  else
    { s with rpy_min := -180, rpy_max := 180 }

/-- `case CHANGE_ALL` of `reconfCallback`: mirror the current transform
into the config (translation, roll/pitch/yaw converted for display,
quaternion).  No transform mutation. -/
noncomputable def changeAll (s : SenderState) (config : Config) :
    SenderState × Config × List Diag :=
  let rpy := displayRPY s.angle_units (getRPY s.transform.rotation)
  (s,
   { config with
     x := s.transform.origin.x, y := s.transform.origin.y, z := s.transform.origin.z,
     roll := rpy.1, pitch := rpy.2.1, yaw := rpy.2.2,
     qw := s.transform.rotation.w, qx := s.transform.rotation.x,
     qy := s.transform.rotation.y, qz := s.transform.rotation.z },
   [])

/-- `case CHANGE_XYZ` of `reconfCallback`: rebuild the transform with
the new translation, current rotation, stamped now.  Config untouched. -/
noncomputable def changeXYZ (s : SenderState) (config : Config) (now : ℕ) :
    SenderState × Config × List Diag :=
  ({ s with transform :=
      { rotation := s.transform.rotation,
        origin := ⟨config.x, config.y, config.z⟩,
        stamp := now,
        frame_id := s.transform.frame_id,
        child_frame_id := s.transform.child_frame_id } },
   config, [])

/-- `case CHANGE_RPY` of `reconfCallback`: read roll/pitch/yaw from the
config, convert degrees to radians when the active unit is degrees,
compose with `setRPY`, rebuild the transform with the current origin
stamped now, and refresh the config's quaternion fields. -/
noncomputable def changeRPY (s : SenderState) (config : Config) (now : ℕ) :
    SenderState × Config × List Diag :=
  let R := if s.angle_units = USE_DEGREES then toRadians config.roll else config.roll
  let P := if s.angle_units = USE_DEGREES then toRadians config.pitch else config.pitch
  let Y := if s.angle_units = USE_DEGREES then toRadians config.yaw else config.yaw
  let q := setRPY R P Y
  ({ s with transform :=
      { rotation := q,
        origin := s.transform.origin,
        stamp := now,
        frame_id := s.transform.frame_id,
        child_frame_id := s.transform.child_frame_id } },
   { config with qw := q.w, qx := q.x, qy := q.y, qz := q.z },
   [])

/-- `case CHANGE_QUAT` of `reconfCallback`: validate the quaternion
payload (reject a zero-length one with an error, normalize a non-unit
one with a warning), rebuild the transform with the resulting rotation
and current origin stamped now, write the corrected quaternion and the
re-derived roll/pitch/yaw back into the config, and reset the
`use_quaternion` checkbox. -/
noncomputable def changeQuat (s : SenderState) (config : Config) (now : ℕ) :
    SenderState × Config × List Diag :=
  let q0 : Quat := ⟨config.qx, config.qy, config.qz, config.qw⟩
  let qd : Quat × List Diag :=
    if length2 q0 = 0 then
      (s.transform.rotation,
       [(DiagLevel.error, "Reconfigure: quaternion length cannot be 0.0. Using previous value")])
    else if length2 q0 > 1 + DBL_EPSILON ∨ length2 q0 < 1 - DBL_EPSILON then
      (normalize q0,
       [(DiagLevel.warn, "Reconfigure: quaternion is not normalized. Normalizing.")])
    else (q0, [])
  let q := qd.1
  let rpy := displayRPY s.angle_units (getRPY q)
  ({ s with transform :=
      { rotation := q,
        origin := s.transform.origin,
        stamp := now,
        frame_id := s.transform.frame_id,
        child_frame_id := s.transform.child_frame_id } },
   { config with
     qw := q.w, qx := q.x, qy := q.y, qz := q.z,
     roll := rpy.1, pitch := rpy.2.1, yaw := rpy.2.2,
     use_quaternion := false },
   qd.2)

/-- `case CHANGE_UNITS` of `reconfCallback`: no-op when the requested
unit equals the active one; otherwise adopt the new unit, republish the
roll/pitch/yaw editing bounds, and rewrite the config's roll/pitch/yaw
from the current rotation in the new unit.  The transform itself is not
touched. -/
noncomputable def changeUnits (s : SenderState) (config : Config) :
    SenderState × Config × List Diag :=
  if s.angle_units = config.angle_units then (s, config, [])
  else
    let s1 := reconfRPYLimits { s with angle_units := config.angle_units }
    let rpy := displayRPY config.angle_units (getRPY s.transform.rotation)
    (s1,
     { config with roll := rpy.1, pitch := rpy.2.1, yaw := rpy.2.2 },
     [(DiagLevel.info, "UNITS")])

/-- `TransformSender::reconfCallback`: dispatch on the reconfigure
level; every call first logs the level at info severity.  Unlisted
levels fall through the switch and change nothing. -/
noncomputable def reconfCallback (s : SenderState) (config : Config) (level : ℕ) (now : ℕ) :
    SenderState × Config × List Diag :=
  let r :=
    if level = CHANGE_ALL then changeAll s config
    else if level = CHANGE_XYZ then changeXYZ s config now
    else if level = CHANGE_RPY then changeRPY s config now
    else if level = CHANGE_QUAT then changeQuat s config now
    else if level = CHANGE_UNITS then changeUnits s config
    else (s, config, [])
  (r.1, r.2.1, (DiagLevel.info, "Level") :: r.2.2)

/-- The Euler-form `TransformSender` constructor: builds the transform
from `setRPY roll pitch yaw` and the translation; `angle_units_`
starts at `USE_RADIANS` (0).  The initial editing bounds come from the
reconfigure server's defaults, supplied here as parameters. -/
noncomputable def mkSenderRPY (x y z yaw pitch roll : ℝ) (time : ℕ)
    (frame_id child_frame_id : String) (min0 max0 : ℝ) : SenderState :=
  { transform :=
      { rotation := setRPY roll pitch yaw,
        origin := ⟨x, y, z⟩,
        stamp := time,
        frame_id := frame_id,
        child_frame_id := child_frame_id },
    angle_units := 0, rpy_min := min0, rpy_max := max0 }

/-- The quaternion-form `TransformSender` constructor: builds the
transform directly from the given quaternion components, with no
validation or normalization. -/
noncomputable def mkSenderQuat (x y z qx qy qz qw : ℝ) (time : ℕ)
    (frame_id child_frame_id : String) (min0 max0 : ℝ) : SenderState :=
  { transform :=
      { rotation := ⟨qx, qy, qz, qw⟩,
        origin := ⟨x, y, z⟩,
        stamp := time,
        frame_id := frame_id,
        child_frame_id := child_frame_id },
    angle_units := 0, rpy_min := min0, rpy_max := max0 }

/-- A sequence of reconfiguration edits applied in arrival order; each
edit is a config payload, a level and a stamp time. -/
noncomputable def applyEdits (s : SenderState) (edits : List (Config × ℕ × ℕ)) : SenderState :=
  edits.foldl (fun st e => (reconfCallback st e.1 e.2.1 e.2.2).1) s

/-- Unit quaternion within floating-point tolerance: squared norm
within machine double epsilon of 1. -/
def isUnitTol (q : Quat) : Prop := |length2 q - 1| ≤ DBL_EPSILON

lemma DBL_EPSILON_pos : 0 < DBL_EPSILON := by
  unfold DBL_EPSILON
  positivity

lemma DBL_EPSILON_lt_one : DBL_EPSILON < 1 := by
  unfold DBL_EPSILON
  rw [zpow_neg]
  rw [inv_lt_one_iff₀]
  right
  norm_num

lemma length2_nonneg (q : Quat) : 0 ≤ length2 q := by
  unfold length2
  nlinarith [sq_nonneg q.x, sq_nonneg q.y, sq_nonneg q.z, sq_nonneg q.w]

lemma length2_normalize (q : Quat) (h : length2 q ≠ 0) : length2 (normalize q) = 1 := by
  have hpos : 0 < length2 q := lt_of_le_of_ne (length2_nonneg q) (Ne.symm h)
  have hs : Real.sqrt (length2 q) ^ 2 = length2 q := Real.sq_sqrt (le_of_lt hpos)
  have hsne : Real.sqrt (length2 q) ≠ 0 := ne_of_gt (Real.sqrt_pos.mpr hpos)
  simp only [normalize, length2] at *
  field_simp

lemma length2_qmul (p q : Quat) : length2 (qmul p q) = length2 p * length2 q := by
  unfold length2 qmul
  ring

lemma length2_rotX (r : ℝ) : length2 (rotX r) = 1 := by
  unfold length2 rotX
  simp only
  nlinarith [Real.sin_sq_add_cos_sq (r / 2)]

lemma length2_rotY (p : ℝ) : length2 (rotY p) = 1 := by
  unfold length2 rotY
  simp only
  nlinarith [Real.sin_sq_add_cos_sq (p / 2)]

lemma length2_rotZ (y : ℝ) : length2 (rotZ y) = 1 := by
  unfold length2 rotZ
  simp only
  nlinarith [Real.sin_sq_add_cos_sq (y / 2)]

lemma length2_setRPY (roll pitch yaw : ℝ) : length2 (setRPY roll pitch yaw) = 1 := by
  unfold setRPY
  rw [length2_qmul, length2_qmul, length2_rotX, length2_rotY, length2_rotZ]
  norm_num

lemma atan2_one_zero : atan2 1 0 = Real.pi / 2 := by
  unfold atan2
  norm_num

lemma reconf_at_ALL (s : SenderState) (c : Config) (now : ℕ) :
    reconfCallback s c CHANGE_ALL now =
      ((changeAll s c).1, (changeAll s c).2.1,
       (DiagLevel.info, "Level") :: (changeAll s c).2.2) := by
  norm_num [reconfCallback, CHANGE_ALL]

lemma reconf_at_XYZ (s : SenderState) (c : Config) (now : ℕ) :
    reconfCallback s c CHANGE_XYZ now =
      ((changeXYZ s c now).1, (changeXYZ s c now).2.1,
       (DiagLevel.info, "Level") :: (changeXYZ s c now).2.2) := by
  norm_num [reconfCallback, CHANGE_ALL, CHANGE_XYZ]

lemma reconf_at_RPY (s : SenderState) (c : Config) (now : ℕ) :
    reconfCallback s c CHANGE_RPY now =
      ((changeRPY s c now).1, (changeRPY s c now).2.1,
       (DiagLevel.info, "Level") :: (changeRPY s c now).2.2) := by
  norm_num [reconfCallback, CHANGE_ALL, CHANGE_XYZ, CHANGE_RPY]

lemma reconf_at_QUAT (s : SenderState) (c : Config) (now : ℕ) :
    reconfCallback s c CHANGE_QUAT now =
      ((changeQuat s c now).1, (changeQuat s c now).2.1,
       (DiagLevel.info, "Level") :: (changeQuat s c now).2.2) := by
  norm_num [reconfCallback, CHANGE_ALL, CHANGE_XYZ, CHANGE_RPY, CHANGE_QUAT]

lemma reconf_at_UNITS (s : SenderState) (c : Config) (now : ℕ) :
    reconfCallback s c CHANGE_UNITS now =
      ((changeUnits s c).1, (changeUnits s c).2.1,
       (DiagLevel.info, "Level") :: (changeUnits s c).2.2) := by
  norm_num [reconfCallback, CHANGE_ALL, CHANGE_XYZ, CHANGE_RPY, CHANGE_QUAT, CHANGE_UNITS]

lemma reconf_at_default (s : SenderState) (c : Config) (level now : ℕ)
    (h1 : level ≠ CHANGE_ALL) (h2 : level ≠ CHANGE_XYZ) (h3 : level ≠ CHANGE_RPY)
    (h4 : level ≠ CHANGE_QUAT) (h5 : level ≠ CHANGE_UNITS) :
    reconfCallback s c level now = (s, c, [(DiagLevel.info, "Level")]) := by
  unfold reconfCallback
  rw [if_neg h1, if_neg h2, if_neg h3, if_neg h4, if_neg h5]

/-- A concrete sender state used to instantiate universally quantified
theorems: identity-like rotation `q`, zero translation, radians. -/
noncomputable def sampleState (q : Quat) : SenderState :=
  { transform :=
      { rotation := q, origin := ⟨0, 0, 0⟩, stamp := 0,
        frame_id := "map", child_frame_id := "base" },
    angle_units := 0, rpy_min := -Real.pi, rpy_max := Real.pi }

/-- A concrete config payload carrying the quaternion `(qx,qy,qz,qw)`. -/
noncomputable def sampleConfig (qx qy qz qw : ℝ) : Config :=
  { x := 0, y := 0, z := 0, roll := 0, pitch := 0, yaw := 0,
    qw := qw, qx := qx, qy := qy, qz := qz,
    angle_units := 0, use_quaternion := true }

/-- C5: a ChangeTranslation edit sets the transform's translation to
the payload (x,y,z), keeps the rotation held before the edit, re-stamps
to now, and returns the config unchanged, so its Euler and quaternion
fields are untouched. -/
theorem c5_change_translation (s : SenderState) (c : Config) (now : ℕ) :
    (reconfCallback s c CHANGE_XYZ now).1.transform.origin = ⟨c.x, c.y, c.z⟩ ∧
    (reconfCallback s c CHANGE_XYZ now).1.transform.rotation = s.transform.rotation ∧
    (reconfCallback s c CHANGE_XYZ now).1.transform.stamp = now ∧
    (reconfCallback s c CHANGE_XYZ now).2.1 = c := by
  rw [reconf_at_XYZ]
  refine ⟨rfl, rfl, rfl, rfl⟩

/-- C6: a ChangeEuler edit converts the payload angles to radians when
the active unit is degrees, composes them into a quaternion in
roll-pitch-yaw order, keeps the current translation, re-stamps to now,
and refreshes the config's quaternion fields from the resulting
rotation. -/
theorem c6_change_euler (s : SenderState) (c : Config) (now : ℕ) :
    (reconfCallback s c CHANGE_RPY now).1.transform.rotation =
      setRPY (if s.angle_units = USE_DEGREES then toRadians c.roll else c.roll)
        (if s.angle_units = USE_DEGREES then toRadians c.pitch else c.pitch)
        (if s.angle_units = USE_DEGREES then toRadians c.yaw else c.yaw) ∧
    (reconfCallback s c CHANGE_RPY now).1.transform.origin = s.transform.origin ∧
    (reconfCallback s c CHANGE_RPY now).1.transform.stamp = now ∧
    (reconfCallback s c CHANGE_RPY now).2.1.qw =
      (reconfCallback s c CHANGE_RPY now).1.transform.rotation.w ∧
    (reconfCallback s c CHANGE_RPY now).2.1.qx =
      (reconfCallback s c CHANGE_RPY now).1.transform.rotation.x ∧
    (reconfCallback s c CHANGE_RPY now).2.1.qy =
      (reconfCallback s c CHANGE_RPY now).1.transform.rotation.y ∧
    (reconfCallback s c CHANGE_RPY now).2.1.qz =
      (reconfCallback s c CHANGE_RPY now).1.transform.rotation.z := by
  rw [reconf_at_RPY]
  refine ⟨rfl, rfl, rfl, rfl, rfl, rfl, rfl⟩

lemma reconf_frame_ids (s : SenderState) (c : Config) (level now : ℕ) :
    (reconfCallback s c level now).1.transform.frame_id = s.transform.frame_id ∧
    (reconfCallback s c level now).1.transform.child_frame_id = s.transform.child_frame_id := by
  unfold reconfCallback
  split_ifs <;>
    simp [changeAll, changeXYZ, changeRPY, changeQuat, changeUnits, reconfRPYLimits]
  split_ifs <;> simp

lemma applyEdits_frame_ids (s : SenderState) (edits : List (Config × ℕ × ℕ)) :
    (applyEdits s edits).transform.frame_id = s.transform.frame_id ∧
    (applyEdits s edits).transform.child_frame_id = s.transform.child_frame_id := by
  induction edits generalizing s with
  | nil => exact ⟨rfl, rfl⟩
  | cons e rest ih =>
      have h1 := reconf_frame_ids s e.1 e.2.1 e.2.2
      have h2 := ih (reconfCallback s e.1 e.2.1 e.2.2).1
      unfold applyEdits at *
      simp only [List.foldl_cons]
      exact ⟨h2.1.trans h1.1, h2.2.trans h1.2⟩

/-- C8: frame_id and child_frame_id are set at construction (by either
constructor form) and are preserved by every sequence of
reconfiguration edits of every change-kind. -/
theorem c8_frame_ids_immutable :
    (∀ (x y z yaw pitch roll : ℝ) (t : ℕ) (f g : String) (m M : ℝ)
        (edits : List (Config × ℕ × ℕ)),
      (applyEdits (mkSenderRPY x y z yaw pitch roll t f g m M) edits).transform.frame_id = f ∧
      (applyEdits (mkSenderRPY x y z yaw pitch roll t f g m M) edits).transform.child_frame_id
        = g) ∧
    (∀ (x y z qx qy qz qw : ℝ) (t : ℕ) (f g : String) (m M : ℝ)
        (edits : List (Config × ℕ × ℕ)),
      (applyEdits (mkSenderQuat x y z qx qy qz qw t f g m M) edits).transform.frame_id = f ∧
      (applyEdits (mkSenderQuat x y z qx qy qz qw t f g m M) edits).transform.child_frame_id
        = g) := by
  constructor
  · intro x y z yaw pitch roll t f g m M edits
    exact applyEdits_frame_ids (mkSenderRPY x y z yaw pitch roll t f g m M) edits
  · intro x y z qx qy qz qw t f g m M edits
    exact applyEdits_frame_ids (mkSenderQuat x y z qx qy qz qw t f g m M) edits

/-- C9: the snapshot's use_quaternion flag is false after every
ChangeQuaternion edit, and every other level leaves the flag exactly
as it came in. -/
theorem c9_use_quaternion_reset :
    (∀ (s : SenderState) (c : Config) (now : ℕ),
      (reconfCallback s c CHANGE_QUAT now).2.1.use_quaternion = false) ∧
    (∀ (s : SenderState) (c : Config) (level now : ℕ), level ≠ CHANGE_QUAT →
      (reconfCallback s c level now).2.1.use_quaternion = c.use_quaternion) := by
  constructor
  · intro s c now
    rw [reconf_at_QUAT]
    simp [changeQuat]
  · intro s c level now h
    by_cases h1 : level = CHANGE_ALL
    · subst h1
      rw [reconf_at_ALL]
      simp [changeAll]
    · by_cases h2 : level = CHANGE_XYZ
      · subst h2
        rw [reconf_at_XYZ]
        simp [changeXYZ]
      · by_cases h3 : level = CHANGE_RPY
        · subst h3
          rw [reconf_at_RPY]
          simp [changeRPY]
        · by_cases h5 : level = CHANGE_UNITS
          · subst h5
            rw [reconf_at_UNITS]
            simp only [changeUnits]
            split_ifs <;> simp
          · rw [reconf_at_default s c level now h1 h2 h3 h h5]

/-- C9 witness: at a concrete state, a ChangeQuaternion edit clears the
flag while a ChangeTranslation edit leaves it set. -/
theorem c9_use_quaternion_reset_witness :
    (reconfCallback (sampleState ⟨0, 0, 0, 1⟩) (sampleConfig 0 0 0 1) CHANGE_QUAT
        0).2.1.use_quaternion = false ∧
    CHANGE_XYZ ≠ CHANGE_QUAT ∧
    (reconfCallback (sampleState ⟨0, 0, 0, 1⟩) (sampleConfig 0 0 0 1) CHANGE_XYZ
        0).2.1.use_quaternion = (sampleConfig 0 0 0 1).use_quaternion :=
  ⟨c9_use_quaternion_reset.1 (sampleState ⟨0, 0, 0, 1⟩) (sampleConfig 0 0 0 1) 0,
   by decide,
   c9_use_quaternion_reset.2 (sampleState ⟨0, 0, 0, 1⟩) (sampleConfig 0 0 0 1)
     CHANGE_XYZ 0 (by decide)⟩

/-- C1 (amended): a ChangeQuaternion edit with a zero-squared-norm
payload is rejected: the previous rotation is retained, the translation
is untouched, and an error-level diagnostic (not a warning-level one)
is surfaced; the callback is a total function, so the edit never
crashes or raises. -/
theorem c1_zero_quaternion_rejected (s : SenderState) (c : Config) (now : ℕ)
    (h : length2 ⟨c.qx, c.qy, c.qz, c.qw⟩ = 0) :
    (reconfCallback s c CHANGE_QUAT now).1.transform.rotation = s.transform.rotation ∧
    (reconfCallback s c CHANGE_QUAT now).1.transform.origin = s.transform.origin ∧
    (DiagLevel.error, "Reconfigure: quaternion length cannot be 0.0. Using previous value") ∈
      (reconfCallback s c CHANGE_QUAT now).2.2 ∧
    (∀ m, (DiagLevel.warn, m) ∉ (reconfCallback s c CHANGE_QUAT now).2.2) := by
  rw [reconf_at_QUAT]
  refine ⟨?_, ?_, ?_, ?_⟩ <;> simp [changeQuat, h]

/-- C1 witness: the rejection facts instantiated at the concrete
payload (0,0,0,0) against the identity rotation. -/
theorem c1_zero_quaternion_rejected_witness :
    length2 ⟨(sampleConfig 0 0 0 0).qx, (sampleConfig 0 0 0 0).qy,
      (sampleConfig 0 0 0 0).qz, (sampleConfig 0 0 0 0).qw⟩ = 0 ∧
    (reconfCallback (sampleState ⟨0, 0, 0, 1⟩) (sampleConfig 0 0 0 0) CHANGE_QUAT
        7).1.transform.rotation = (sampleState ⟨0, 0, 0, 1⟩).transform.rotation ∧
    (reconfCallback (sampleState ⟨0, 0, 0, 1⟩) (sampleConfig 0 0 0 0) CHANGE_QUAT
        7).1.transform.origin = (sampleState ⟨0, 0, 0, 1⟩).transform.origin ∧
    (DiagLevel.error, "Reconfigure: quaternion length cannot be 0.0. Using previous value") ∈
      (reconfCallback (sampleState ⟨0, 0, 0, 1⟩) (sampleConfig 0 0 0 0) CHANGE_QUAT 7).2.2 :=
  have h : length2 ⟨(sampleConfig 0 0 0 0).qx, (sampleConfig 0 0 0 0).qy,
      (sampleConfig 0 0 0 0).qz, (sampleConfig 0 0 0 0).qw⟩ = 0 := by
    simp [sampleConfig, length2]
  have hmain := c1_zero_quaternion_rejected (sampleState ⟨0, 0, 0, 1⟩)
    (sampleConfig 0 0 0 0) 7 h
  ⟨h, hmain.1, hmain.2.1, hmain.2.2.1⟩

/-- C1 counterexample: the claim as stated requires a warning-level
diagnostic, but at the zero payload the surfaced diagnostics are an
info-level level log and an error-level rejection, with no
warning-level entry. -/
theorem c1_no_warning_counterexample :
    length2 ⟨(sampleConfig 0 0 0 0).qx, (sampleConfig 0 0 0 0).qy,
      (sampleConfig 0 0 0 0).qz, (sampleConfig 0 0 0 0).qw⟩ = 0 ∧
    (reconfCallback (sampleState ⟨0, 0, 0, 1⟩) (sampleConfig 0 0 0 0) CHANGE_QUAT 7).2.2 =
      [(DiagLevel.info, "Level"),
       (DiagLevel.error, "Reconfigure: quaternion length cannot be 0.0. Using previous value")] ∧
    (∀ m, (DiagLevel.warn, m) ∉
      (reconfCallback (sampleState ⟨0, 0, 0, 1⟩) (sampleConfig 0 0 0 0) CHANGE_QUAT 7).2.2) := by
  refine ⟨by simp [sampleConfig, length2], ?_, ?_⟩ <;>
    rw [reconf_at_QUAT] <;>
    simp [changeQuat, sampleConfig, sampleState, length2]

/-- C10: a rejected ChangeQuaternion edit is not a no-op: the transform
is rebuilt re-stamped to now (with the retained rotation and origin),
the config's quaternion and roll/pitch/yaw fields are rewritten from
the retained rotation, and use_quaternion is reset to false. -/
theorem c10_rejected_edit_side_effects (s : SenderState) (c : Config) (now : ℕ)
    (h : length2 ⟨c.qx, c.qy, c.qz, c.qw⟩ = 0) :
    (reconfCallback s c CHANGE_QUAT now).1.transform.stamp = now ∧
    (reconfCallback s c CHANGE_QUAT now).1.transform.rotation = s.transform.rotation ∧
    (reconfCallback s c CHANGE_QUAT now).2.1.qw = s.transform.rotation.w ∧
    (reconfCallback s c CHANGE_QUAT now).2.1.qx = s.transform.rotation.x ∧
    (reconfCallback s c CHANGE_QUAT now).2.1.qy = s.transform.rotation.y ∧
    (reconfCallback s c CHANGE_QUAT now).2.1.qz = s.transform.rotation.z ∧
    (reconfCallback s c CHANGE_QUAT now).2.1.roll =
      (displayRPY s.angle_units (getRPY s.transform.rotation)).1 ∧
    (reconfCallback s c CHANGE_QUAT now).2.1.pitch =
      (displayRPY s.angle_units (getRPY s.transform.rotation)).2.1 ∧
    (reconfCallback s c CHANGE_QUAT now).2.1.yaw =
      (displayRPY s.angle_units (getRPY s.transform.rotation)).2.2 ∧
    (reconfCallback s c CHANGE_QUAT now).2.1.use_quaternion = false := by
  rw [reconf_at_QUAT]
  refine ⟨?_, ?_, ?_, ?_, ?_, ?_, ?_, ?_, ?_, ?_⟩ <;> simp [changeQuat, h]

/-- C10 witness: the side effects instantiated at the zero payload, a
fresh stamp time 7 and a non-identity retained rotation. -/
theorem c10_rejected_edit_side_effects_witness :
    length2 ⟨(sampleConfig 0 0 0 0).qx, (sampleConfig 0 0 0 0).qy,
      (sampleConfig 0 0 0 0).qz, (sampleConfig 0 0 0 0).qw⟩ = 0 ∧
    (reconfCallback (sampleState ⟨1, 0, 0, 0⟩) (sampleConfig 0 0 0 0) CHANGE_QUAT
        7).1.transform.stamp = 7 ∧
    (reconfCallback (sampleState ⟨1, 0, 0, 0⟩) (sampleConfig 0 0 0 0) CHANGE_QUAT
        7).2.1.qx = (sampleState ⟨1, 0, 0, 0⟩).transform.rotation.x ∧
    (reconfCallback (sampleState ⟨1, 0, 0, 0⟩) (sampleConfig 0 0 0 0) CHANGE_QUAT
        7).2.1.use_quaternion = false :=
  have h : length2 ⟨(sampleConfig 0 0 0 0).qx, (sampleConfig 0 0 0 0).qy,
      (sampleConfig 0 0 0 0).qz, (sampleConfig 0 0 0 0).qw⟩ = 0 := by
    simp [sampleConfig, length2]
  have hmain := c10_rejected_edit_side_effects (sampleState ⟨1, 0, 0, 0⟩)
    (sampleConfig 0 0 0 0) 7 h
  ⟨h, hmain.1, hmain.2.2.2.1, hmain.2.2.2.2.2.2.2.2.2⟩

lemma inv_sqrt_two_near : |1 / Real.sqrt 2 - 0.707| < 0.001 := by
  have ht : Real.sqrt 2 ^ 2 = 2 := Real.sq_sqrt (by norm_num)
  have htpos : 0 < Real.sqrt 2 := Real.sqrt_pos.mpr (by norm_num)
  have h14 : (1.414 : ℝ) < Real.sqrt 2 := by nlinarith [Real.sqrt_nonneg 2]
  have h15 : Real.sqrt 2 < 1.4143 := by nlinarith [Real.sqrt_nonneg 2]
  have hlow : (0.706 : ℝ) < 1 / Real.sqrt 2 := by
    rw [lt_div_iff₀ htpos]
    nlinarith
  have hhigh : 1 / Real.sqrt 2 < 0.708 := by
    rw [div_lt_iff₀ htpos]
    nlinarith
  rw [abs_lt]
  constructor <;> linarith

/-- C2: a ChangeQuaternion edit whose payload has nonzero squared norm
deviating from 1 by more than machine double epsilon is normalized
before being applied, a warning-level diagnostic is surfaced, and the
config's quaternion fields report the corrected value. -/
theorem c2_nonunit_quaternion_normalized (s : SenderState) (c : Config) (now : ℕ)
    (h0 : length2 ⟨c.qx, c.qy, c.qz, c.qw⟩ ≠ 0)
    (h1 : |length2 ⟨c.qx, c.qy, c.qz, c.qw⟩ - 1| > DBL_EPSILON) :
    (reconfCallback s c CHANGE_QUAT now).1.transform.rotation =
      normalize ⟨c.qx, c.qy, c.qz, c.qw⟩ ∧
    (DiagLevel.warn, "Reconfigure: quaternion is not normalized. Normalizing.") ∈
      (reconfCallback s c CHANGE_QUAT now).2.2 ∧
    (reconfCallback s c CHANGE_QUAT now).2.1.qx = (normalize ⟨c.qx, c.qy, c.qz, c.qw⟩).x ∧
    (reconfCallback s c CHANGE_QUAT now).2.1.qy = (normalize ⟨c.qx, c.qy, c.qz, c.qw⟩).y ∧
    (reconfCallback s c CHANGE_QUAT now).2.1.qz = (normalize ⟨c.qx, c.qy, c.qz, c.qw⟩).z ∧
    (reconfCallback s c CHANGE_QUAT now).2.1.qw = (normalize ⟨c.qx, c.qy, c.qz, c.qw⟩).w := by
  have hbr : length2 ⟨c.qx, c.qy, c.qz, c.qw⟩ > 1 + DBL_EPSILON ∨
      length2 ⟨c.qx, c.qy, c.qz, c.qw⟩ < 1 - DBL_EPSILON := by
    rcases lt_abs.mp h1 with h | h
    · left
      linarith
    · right
      linarith
  rw [reconf_at_QUAT]
  refine ⟨?_, ?_, ?_, ?_, ?_, ?_⟩ <;> simp [changeQuat, h0, hbr]

/-- C2 witness: the payload (1,1,0,0) of squared norm 2 is corrected to
(0.707, 0.707, 0, 0) within tolerance, with the warning surfaced and
the snapshot reporting the corrected components. -/
theorem c2_nonunit_quaternion_normalized_witness :
    length2 ⟨1, 1, 0, 0⟩ ≠ 0 ∧
    |length2 ⟨1, 1, 0, 0⟩ - 1| > DBL_EPSILON ∧
    (reconfCallback (sampleState ⟨0, 0, 0, 1⟩) (sampleConfig 1 1 0 0) CHANGE_QUAT
        7).1.transform.rotation = normalize ⟨1, 1, 0, 0⟩ ∧
    (DiagLevel.warn, "Reconfigure: quaternion is not normalized. Normalizing.") ∈
      (reconfCallback (sampleState ⟨0, 0, 0, 1⟩) (sampleConfig 1 1 0 0) CHANGE_QUAT 7).2.2 ∧
    (reconfCallback (sampleState ⟨0, 0, 0, 1⟩) (sampleConfig 1 1 0 0) CHANGE_QUAT
        7).2.1.qx = (normalize ⟨1, 1, 0, 0⟩).x ∧
    |(normalize ⟨1, 1, 0, 0⟩).x - 0.707| < 0.001 ∧
    |(normalize ⟨1, 1, 0, 0⟩).y - 0.707| < 0.001 ∧
    (normalize ⟨1, 1, 0, 0⟩).z = 0 ∧
    (normalize ⟨1, 1, 0, 0⟩).w = 0 := by
  have h0 : length2 (⟨1, 1, 0, 0⟩ : Quat) ≠ 0 := by
    norm_num [length2]
  have h1 : |length2 (⟨1, 1, 0, 0⟩ : Quat) - 1| > DBL_EPSILON := by
    have := DBL_EPSILON_lt_one
    norm_num [length2]
    linarith
  have hx : (normalize ⟨1, 1, 0, 0⟩).x = 1 / Real.sqrt 2 := by
    norm_num [normalize, length2]
  have hy : (normalize ⟨1, 1, 0, 0⟩).y = 1 / Real.sqrt 2 := by
    norm_num [normalize, length2]
  have hmain := c2_nonunit_quaternion_normalized (sampleState ⟨0, 0, 0, 1⟩)
    (sampleConfig 1 1 0 0) 7 h0 h1
  refine ⟨h0, h1, hmain.1, hmain.2.1, hmain.2.2.1, ?_, ?_, ?_, ?_⟩
  · rw [hx]
    exact inv_sqrt_two_near
  · rw [hy]
    exact inv_sqrt_two_near
  · norm_num [normalize, length2]
  · norm_num [normalize, length2]

/-- C4: applying ChangeQuaternion with a unit quaternion and then
Initialize (CHANGE_ALL) yields a config whose quaternion fields equal
the input exactly. -/
theorem c4_quat_then_initialize_roundtrip (s : SenderState) (c : Config) (now now2 : ℕ)
    (h : length2 ⟨c.qx, c.qy, c.qz, c.qw⟩ = 1) :
    (reconfCallback (reconfCallback s c CHANGE_QUAT now).1
      (reconfCallback s c CHANGE_QUAT now).2.1 CHANGE_ALL now2).2.1.qx = c.qx ∧
    (reconfCallback (reconfCallback s c CHANGE_QUAT now).1
      (reconfCallback s c CHANGE_QUAT now).2.1 CHANGE_ALL now2).2.1.qy = c.qy ∧
    (reconfCallback (reconfCallback s c CHANGE_QUAT now).1
      (reconfCallback s c CHANGE_QUAT now).2.1 CHANGE_ALL now2).2.1.qz = c.qz ∧
    (reconfCallback (reconfCallback s c CHANGE_QUAT now).1
      (reconfCallback s c CHANGE_QUAT now).2.1 CHANGE_ALL now2).2.1.qw = c.qw := by
  have hne : length2 ⟨c.qx, c.qy, c.qz, c.qw⟩ ≠ 0 := by
    rw [h]
    norm_num
  have hnotbr : ¬(length2 ⟨c.qx, c.qy, c.qz, c.qw⟩ > 1 + DBL_EPSILON ∨
      length2 ⟨c.qx, c.qy, c.qz, c.qw⟩ < 1 - DBL_EPSILON) := by
    rw [h]
    push_neg
    constructor <;> nlinarith [DBL_EPSILON_pos]
  rw [reconf_at_QUAT, reconf_at_ALL]
  refine ⟨?_, ?_, ?_, ?_⟩ <;> simp [changeQuat, changeAll, hne, hnotbr]

/-- C4 witness: the round trip instantiated at the unit quaternion
(0, 0, 0, 1). -/
theorem c4_quat_then_initialize_roundtrip_witness :
    length2 ⟨0, 0, 0, 1⟩ = 1 ∧
    (reconfCallback
      (reconfCallback (sampleState ⟨1, 0, 0, 0⟩) (sampleConfig 0 0 0 1) CHANGE_QUAT 7).1
      (reconfCallback (sampleState ⟨1, 0, 0, 0⟩) (sampleConfig 0 0 0 1) CHANGE_QUAT 7).2.1
      CHANGE_ALL 8).2.1.qx = (sampleConfig 0 0 0 1).qx ∧
    (reconfCallback
      (reconfCallback (sampleState ⟨1, 0, 0, 0⟩) (sampleConfig 0 0 0 1) CHANGE_QUAT 7).1
      (reconfCallback (sampleState ⟨1, 0, 0, 0⟩) (sampleConfig 0 0 0 1) CHANGE_QUAT 7).2.1
      CHANGE_ALL 8).2.1.qw = (sampleConfig 0 0 0 1).qw :=
  have h : length2 (⟨0, 0, 0, 1⟩ : Quat) = 1 := by norm_num [length2]
  have hmain := c4_quat_then_initialize_roundtrip (sampleState ⟨1, 0, 0, 0⟩)
    (sampleConfig 0 0 0 1) 7 8 h
  ⟨h, hmain.1, hmain.2.2.2⟩

lemma changeQuat_rotation (s : SenderState) (c : Config) (now : ℕ) :
    (changeQuat s c now).1.transform.rotation =
      (if length2 ⟨c.qx, c.qy, c.qz, c.qw⟩ = 0 then s.transform.rotation
       else if length2 ⟨c.qx, c.qy, c.qz, c.qw⟩ > 1 + DBL_EPSILON ∨
           length2 ⟨c.qx, c.qy, c.qz, c.qw⟩ < 1 - DBL_EPSILON then
         normalize ⟨c.qx, c.qy, c.qz, c.qw⟩
       else ⟨c.qx, c.qy, c.qz, c.qw⟩) := by
  simp only [changeQuat]
  split_ifs <;> rfl

/-- C3 counterexample: the quaternion-form constructor accepts any
payload without validation, so constructing with (0,0,0,2) (squared
norm 4) produces a stored rotation that is not a unit quaternion even
within tolerance. -/
theorem c3_nonunit_constructor_counterexample :
    ¬ isUnitTol (mkSenderQuat 0 0 0 0 0 0 2 0 "map" "base" (-1) 1).transform.rotation := by
  have h1 := DBL_EPSILON_lt_one
  simp only [isUnitTol, mkSenderQuat, length2, not_le]
  norm_num
  linarith

/-- C3 (amended): the rotation is a unit quaternion within tolerance
after the Euler-form constructor, after the quaternion-form constructor
whenever its input is a unit quaternion (the constructor itself
performs no validation), and after every edit of every change-kind
whenever it was one before the edit. -/
theorem c3_unit_rotation_invariant :
    (∀ (x y z yaw pitch roll : ℝ) (t : ℕ) (f g : String) (m M : ℝ),
      isUnitTol (mkSenderRPY x y z yaw pitch roll t f g m M).transform.rotation) ∧
    (∀ (x y z qx qy qz qw : ℝ) (t : ℕ) (f g : String) (m M : ℝ),
      length2 ⟨qx, qy, qz, qw⟩ = 1 →
      isUnitTol (mkSenderQuat x y z qx qy qz qw t f g m M).transform.rotation) ∧
    (∀ (s : SenderState) (c : Config) (level now : ℕ),
      isUnitTol s.transform.rotation →
      isUnitTol (reconfCallback s c level now).1.transform.rotation) := by
  have heps := DBL_EPSILON_pos
  refine ⟨?_, ?_, ?_⟩
  · intro x y z yaw pitch roll t f g m M
    show |length2 (setRPY roll pitch yaw) - 1| ≤ DBL_EPSILON
    rw [length2_setRPY]
    simp
    linarith
  · intro x y z qx qy qz qw t f g m M h
    show |length2 (⟨qx, qy, qz, qw⟩ : Quat) - 1| ≤ DBL_EPSILON
    rw [h]
    simp
    linarith
  · intro s c level now hu
    by_cases h1 : level = CHANGE_ALL
    · subst h1
      rw [reconf_at_ALL]
      exact hu
    · by_cases h2 : level = CHANGE_XYZ
      · subst h2
        rw [reconf_at_XYZ]
        exact hu
      · by_cases h3 : level = CHANGE_RPY
        · subst h3
          rw [reconf_at_RPY]
          show |length2 (setRPY _ _ _) - 1| ≤ DBL_EPSILON
          rw [length2_setRPY]
          simp
          linarith
        · by_cases h4 : level = CHANGE_QUAT
          · subst h4
            rw [reconf_at_QUAT]
            show isUnitTol (changeQuat s c now).1.transform.rotation
            rw [changeQuat_rotation]
            split_ifs with hz hbr
            · exact hu
            · show |length2 (normalize _) - 1| ≤ DBL_EPSILON
              rw [length2_normalize _ hz]
              simp
              linarith
            · push_neg at hbr
              show |length2 (⟨c.qx, c.qy, c.qz, c.qw⟩ : Quat) - 1| ≤ DBL_EPSILON
              rw [abs_le]
              constructor <;> linarith [hbr.1, hbr.2]
          · by_cases h5 : level = CHANGE_UNITS
            · subst h5
              rw [reconf_at_UNITS]
              show isUnitTol (changeUnits s c).1.transform.rotation
              unfold changeUnits reconfRPYLimits
              split_ifs <;> exact hu
            · rw [reconf_at_default s c level now h1 h2 h3 h4 h5]
              exact hu

/-- C3 witness: the invariant facts instantiated at concrete inputs:
the Euler-form constructor at angles (0.3, 0.2, 0.1), the
quaternion-form constructor at the unit input (0,0,0,1), and a
ChangeQuaternion edit from a unit state. -/
theorem c3_unit_rotation_invariant_witness :
    isUnitTol (mkSenderRPY 1 2 3 0.1 0.2 0.3 0 "map" "base" (-1) 1).transform.rotation ∧
    length2 ⟨0, 0, 0, 1⟩ = 1 ∧
    isUnitTol (mkSenderQuat 1 2 3 0 0 0 1 0 "map" "base" (-1) 1).transform.rotation ∧
    isUnitTol (sampleState ⟨0, 0, 0, 1⟩).transform.rotation ∧
    isUnitTol (reconfCallback (sampleState ⟨0, 0, 0, 1⟩) (sampleConfig 1 1 0 0)
      CHANGE_QUAT 7).1.transform.rotation :=
  have h1 : length2 (⟨0, 0, 0, 1⟩ : Quat) = 1 := by norm_num [length2]
  have hu : isUnitTol (sampleState ⟨0, 0, 0, 1⟩).transform.rotation := by
    show |length2 (⟨0, 0, 0, 1⟩ : Quat) - 1| ≤ DBL_EPSILON
    rw [h1]
    simp
    linarith [DBL_EPSILON_pos]
  ⟨c3_unit_rotation_invariant.1 1 2 3 0.1 0.2 0.3 0 "map" "base" (-1) 1,
   h1,
   c3_unit_rotation_invariant.2.1 1 2 3 0 0 0 1 0 "map" "base" (-1) 1 h1,
   hu,
   c3_unit_rotation_invariant.2.2 (sampleState ⟨0, 0, 0, 1⟩) (sampleConfig 1 1 0 0)
     CHANGE_QUAT 7 hu⟩

/-- A concrete config payload requesting angle unit `u`, identity
quaternion, used to drive CHANGE_UNITS edits. -/
noncomputable def sampleUnitsConfig (u : ℤ) : Config :=
  { x := 0, y := 0, z := 0, roll := 0, pitch := 0, yaw := 0,
    qw := 1, qx := 0, qy := 0, qz := 0,
    angle_units := u, use_quaternion := false }

lemma changeUnits_ne (s : SenderState) (c : Config) (h : s.angle_units ≠ c.angle_units) :
    changeUnits s c =
      (reconfRPYLimits { s with angle_units := c.angle_units },
       { c with
         roll := (displayRPY c.angle_units (getRPY s.transform.rotation)).1,
         pitch := (displayRPY c.angle_units (getRPY s.transform.rotation)).2.1,
         yaw := (displayRPY c.angle_units (getRPY s.transform.rotation)).2.2 },
       [(DiagLevel.info, "UNITS")]) := by
  unfold changeUnits
  rw [if_neg h]

lemma reconfRPYLimits_transform (s : SenderState) :
    (reconfRPYLimits s).transform = s.transform := by
  unfold reconfRPYLimits
  split_ifs <;> rfl

lemma reconfRPYLimits_angle_units (s : SenderState) :
    (reconfRPYLimits s).angle_units = s.angle_units := by
  unfold reconfRPYLimits
  split_ifs <;> rfl

lemma reconfRPYLimits_min (s : SenderState) :
    (reconfRPYLimits s).rpy_min = if s.angle_units = USE_RADIANS then -Real.pi else -180 := by
  unfold reconfRPYLimits
  split_ifs <;> rfl

lemma reconfRPYLimits_max (s : SenderState) :
    (reconfRPYLimits s).rpy_max = if s.angle_units = USE_RADIANS then Real.pi else 180 := by
  unfold reconfRPYLimits
  split_ifs <;> rfl

/-- C7: a ChangeAngleUnits edit is a no-op when the requested unit is
the active one; otherwise the active unit is set to the request, the
roll/pitch/yaw editing bounds become ±π for radians and ±180
otherwise, the config's roll/pitch/yaw are recomputed from the current
rotation in the newly active unit, and the transform is not mutated. -/
theorem c7_change_angle_units (s : SenderState) (c : Config) (now : ℕ) :
    (s.angle_units = c.angle_units →
      reconfCallback s c CHANGE_UNITS now = (s, c, [(DiagLevel.info, "Level")])) ∧
    (s.angle_units ≠ c.angle_units →
      (reconfCallback s c CHANGE_UNITS now).1.angle_units = c.angle_units ∧
      (reconfCallback s c CHANGE_UNITS now).1.rpy_min =
        (if c.angle_units = USE_RADIANS then -Real.pi else -180) ∧
      (reconfCallback s c CHANGE_UNITS now).1.rpy_max =
        (if c.angle_units = USE_RADIANS then Real.pi else 180) ∧
      (reconfCallback s c CHANGE_UNITS now).1.transform = s.transform ∧
      (reconfCallback s c CHANGE_UNITS now).2.1.roll =
        (displayRPY c.angle_units (getRPY s.transform.rotation)).1 ∧
      (reconfCallback s c CHANGE_UNITS now).2.1.pitch =
        (displayRPY c.angle_units (getRPY s.transform.rotation)).2.1 ∧
      (reconfCallback s c CHANGE_UNITS now).2.1.yaw =
        (displayRPY c.angle_units (getRPY s.transform.rotation)).2.2) := by
  constructor
  · intro h
    rw [reconf_at_UNITS]
    unfold changeUnits
    rw [if_pos h]
  · intro h
    rw [reconf_at_UNITS, changeUnits_ne s c h]
    refine ⟨?_, ?_, ?_, ?_, rfl, rfl, rfl⟩
    · rw [reconfRPYLimits_angle_units]
    · rw [reconfRPYLimits_min]
    · rw [reconfRPYLimits_max]
    · rw [reconfRPYLimits_transform]

lemma getRPY_yaw90 :
    (getRPY ⟨0, 0, Real.sqrt 2 / 2, Real.sqrt 2 / 2⟩).2.2 = Real.pi / 2 := by
  have hs : Real.sqrt 2 * Real.sqrt 2 = 2 := Real.mul_self_sqrt (by norm_num)
  show atan2 (2 * (Real.sqrt 2 / 2 * (Real.sqrt 2 / 2) + 0 * 0))
    (1 - 2 * (0 * 0 + Real.sqrt 2 / 2 * (Real.sqrt 2 / 2))) = Real.pi / 2
  have e0 : Real.sqrt 2 / 2 * (Real.sqrt 2 / 2) = 1 / 2 := by nlinarith [hs]
  rw [e0]
  norm_num [atan2_one_zero]

lemma toDegrees_pi_div_two : toDegrees (Real.pi / 2) = 90 := by
  unfold toDegrees
  rw [div_eq_iff Real.pi_ne_zero]
  ring

/-- C7 witness: from a radians session with rotation yaw = π/2 (the
quaternion (0, 0, √2/2, √2/2)), switching to degrees yields snapshot
yaw exactly 90 with bounds ±180; switching back to radians yields yaw
π/2 ≈ 1.5708. -/
theorem c7_change_angle_units_witness :
    (sampleState ⟨0, 0, Real.sqrt 2 / 2, Real.sqrt 2 / 2⟩).angle_units ≠
      (sampleUnitsConfig 1).angle_units ∧
    (reconfCallback (sampleState ⟨0, 0, Real.sqrt 2 / 2, Real.sqrt 2 / 2⟩)
      (sampleUnitsConfig 1) CHANGE_UNITS 3).2.1.yaw = 90 ∧
    (reconfCallback (sampleState ⟨0, 0, Real.sqrt 2 / 2, Real.sqrt 2 / 2⟩)
      (sampleUnitsConfig 1) CHANGE_UNITS 3).1.rpy_max = 180 ∧
    (reconfCallback (reconfCallback (sampleState ⟨0, 0, Real.sqrt 2 / 2, Real.sqrt 2 / 2⟩)
        (sampleUnitsConfig 1) CHANGE_UNITS 3).1
      (sampleUnitsConfig 0) CHANGE_UNITS 4).2.1.yaw = Real.pi / 2 ∧
    |Real.pi / 2 - 1.5708| < 0.001 := by
  have h1 : (sampleState ⟨0, 0, Real.sqrt 2 / 2, Real.sqrt 2 / 2⟩).angle_units ≠
      (sampleUnitsConfig 1).angle_units := by
    show (0 : ℤ) ≠ 1
    decide
  have t1 := (c7_change_angle_units (sampleState ⟨0, 0, Real.sqrt 2 / 2, Real.sqrt 2 / 2⟩)
    (sampleUnitsConfig 1) 3).2 h1
  have hrot : (sampleState ⟨0, 0, Real.sqrt 2 / 2, Real.sqrt 2 / 2⟩).transform.rotation =
      ⟨0, 0, Real.sqrt 2 / 2, Real.sqrt 2 / 2⟩ := rfl
  have hdisp1 : (displayRPY (sampleUnitsConfig 1).angle_units
      (getRPY (sampleState ⟨0, 0, Real.sqrt 2 / 2, Real.sqrt 2 / 2⟩).transform.rotation)).2.2
      = 90 := by
    rw [hrot]
    show (displayRPY 1 (getRPY ⟨0, 0, Real.sqrt 2 / 2, Real.sqrt 2 / 2⟩)).2.2 = 90
    unfold displayRPY
    rw [if_pos (show (1 : ℤ) = USE_DEGREES from rfl)]
    show toDegrees (getRPY ⟨0, 0, Real.sqrt 2 / 2, Real.sqrt 2 / 2⟩).2.2 = 90
    rw [getRPY_yaw90, toDegrees_pi_div_two]
  have h2 : (reconfCallback (sampleState ⟨0, 0, Real.sqrt 2 / 2, Real.sqrt 2 / 2⟩)
      (sampleUnitsConfig 1) CHANGE_UNITS 3).1.angle_units ≠
      (sampleUnitsConfig 0).angle_units := by
    rw [t1.1]
    show (1 : ℤ) ≠ 0
    decide
  have t2 := (c7_change_angle_units (reconfCallback
    (sampleState ⟨0, 0, Real.sqrt 2 / 2, Real.sqrt 2 / 2⟩)
    (sampleUnitsConfig 1) CHANGE_UNITS 3).1 (sampleUnitsConfig 0) 4).2 h2
  have hdisp2 : (displayRPY (sampleUnitsConfig 0).angle_units
      (getRPY (reconfCallback (sampleState ⟨0, 0, Real.sqrt 2 / 2, Real.sqrt 2 / 2⟩)
        (sampleUnitsConfig 1) CHANGE_UNITS 3).1.transform.rotation)).2.2 = Real.pi / 2 := by
    rw [t1.2.2.2.1, hrot]
    show (displayRPY 0 (getRPY ⟨0, 0, Real.sqrt 2 / 2, Real.sqrt 2 / 2⟩)).2.2 = Real.pi / 2
    unfold displayRPY
    norm_num [USE_DEGREES]
    exact getRPY_yaw90
  refine ⟨h1, ?_, ?_, ?_, ?_⟩
  · rw [t1.2.2.2.2.2.2, hdisp1]
  · rw [t1.2.2.1]
    norm_num [sampleUnitsConfig, USE_RADIANS]
  · rw [t2.2.2.2.2.2.2, hdisp2]
  · rw [abs_lt]
    constructor <;> linarith [Real.pi_gt_d6, Real.pi_lt_d6]

end StaticTransformPublisher
